import Mathlib

/-!
Verification development for the TolimaGO client authentication stack.

Shallow embedding of the relevant source files:
* `src/services/secure-storage.ts`  — the secure token store (four keys),
  expiry computation `calculateExpiryTimestamp`, `isTokenExpired`,
  `hasStoredTokens`, `setTokens`, `clearAll`.
* `src/services/auth-service.ts`    — `refreshTokens`, `logout`,
  `getCurrentUser`, `verifySession`, `register` request building.
* `src/services/http-client.ts`     — the 401/refresh interceptor queue.
* `src/context/auth-context.tsx`    — `authReducer` and `initialState`.
* `src/hooks/use-api-mutation.ts`   — `executeWithRetry` and the `mutate`
  in-flight guard.

Effectful TypeScript is embedded by explicit state passing: secure storage
becomes a `Store` record, network calls become `Option`-valued outcome
parameters supplied by the environment, storage write/delete successes become
explicit `Bool` flags, and a thrown exception becomes `Except.error`.
JavaScript numbers are modelled as exact integers (`Int`/`Nat`).
-/

namespace TolimaGO

/-! ### Data model (src/services/secure-storage.ts, src/services/auth-service.ts) -/

/-- Structure `UserData` from src/services/secure-storage.ts (optional fields as `Option`). -/
structure UserData where
  id : String
  name : String
  email : String
  role : String
  isEmailVerified : Bool
  phone : Option String
  city : Option String
  isResident : Option Bool
  createdAt : String
  lastLoginAt : Option String
  deriving Repr, DecidableEq

/-- Structure `TokenData` from src/services/secure-storage.ts. -/
structure TokenData where
  accessToken : String
  refreshToken : String
  expiresIn : String
  deriving Repr, DecidableEq

/-- The secure-storage state: the four `SecureStore` keys
(`tolimaGO_access_token`, `tolimaGO_refresh_token`, `tolimaGO_token_expiry`,
`tolimaGO_user_data`); `none` means the key is absent. -/
structure Store where
  access : Option String
  refresh : Option String
  expiry : Option String
  user : Option UserData
  deriving Repr, DecidableEq

/-- Storage with no keys present. -/
def emptyStore : Store := ⟨none, none, none, none⟩

/-! ### JavaScript `parseInt` on base-10 strings -/

/-- Value of a list of decimal digit characters, most significant first. -/
def decimalValue (cs : List Char) : Nat :=
  cs.foldl (fun acc c => acc * 10 + (c.toNat - 48)) 0

/-- JS `parseInt(s, 10)`: skip leading spaces, optional sign, then the longest
prefix of decimal digits; `none` models `NaN` (no digits found). -/
def jsParseInt (s : String) : Option Int :=
  match s.toList.dropWhile (fun c => c = ' ') with
  | [] => none
  | c :: t =>
      if c = '-' then
        let ds := t.takeWhile Char.isDigit
        if ds.isEmpty then none else some (-(decimalValue ds : Int))
      else if c = '+' then
        let ds := t.takeWhile Char.isDigit
        if ds.isEmpty then none else some (decimalValue ds)
      else
        let ds := (c :: t).takeWhile Char.isDigit
        if ds.isEmpty then none else some (decimalValue ds)

/-- JS `s.slice(0, -1)`: the string without its last character. -/
def sliceDropLast (s : String) : String := String.mk s.toList.dropLast

/-- JS `s.slice(-1)`: the last character as a (possibly empty) string. -/
def sliceLast (s : String) : String :=
  match s.toList.getLast? with
  | some c => String.mk [c]
  | none => ""

/-! ### `calculateExpiryTimestamp` (src/services/secure-storage.ts lines 167-192) -/

/-- Function `calculateExpiryTimestamp` from `SecureTokenStorage`:
`parseInt` the prefix, switch on the last character (`s`/`m`/`h`/`d`),
default 15 minutes; returns `(now + milliseconds).toString()`.
`none` for `timeValue` models `NaN`; `NaN` propagates through `now + NaN`
so the result string is `"NaN"` in that case. -/
def calculateExpiryTimestamp (now : Int) (expiresIn : String) : String :=
  let timeValue : Option Int := jsParseInt (sliceDropLast expiresIn)
  let timeUnit : String := sliceLast expiresIn
  let milliseconds : Option Int :=
    if timeUnit = "s" then timeValue.map (fun v => v * 1000)
    else if timeUnit = "m" then timeValue.map (fun v => v * 60 * 1000)
    else if timeUnit = "h" then timeValue.map (fun v => v * 60 * 60 * 1000)
    else if timeUnit = "d" then timeValue.map (fun v => v * 24 * 60 * 60 * 1000)
    else some (15 * 60 * 1000)
  match milliseconds with
  | some ms => toString (now + ms)
  | none => "NaN"

/-- Milliseconds for one unit of the suffix grammar (`s`/`m`/`h`/`d`). -/
def unitMillis (u : Char) : Int :=
  if u = 's' then 1000
  else if u = 'm' then 60 * 1000
  else if u = 'h' then 60 * 60 * 1000
  else 24 * 60 * 60 * 1000

/-! ### Secure-storage operations -/

/-- Method `setTokens`: `Promise.all` of three `setItemAsync` writes
(access token, refresh token, computed expiry).  `wa`/`wr`/`we` are the
per-key write outcomes supplied by the platform; a key is updated exactly
when its write succeeds, and the returned `Bool` is `true` iff every write
succeeded (`Promise.all` rejects — `setTokens` throws — when any fails,
but writes that did succeed persist). -/
def setTokens (s : Store) (t : TokenData) (now : Int) (wa wr we : Bool) :
    Store × Bool :=
  ({ s with
      access := if wa then some t.accessToken else s.access
      refresh := if wr then some t.refreshToken else s.refresh
      expiry := if we then some (calculateExpiryTimestamp now t.expiresIn) else s.expiry },
   wa && wr && we)

/-- Per-key outcomes of the four `deleteItemAsync` calls in `clearAll`. -/
structure ClearFlags where
  da : Bool
  dr : Bool
  de : Bool
  du : Bool
  deriving Repr, DecidableEq

/-- All four deletions succeed. -/
def ClearFlags.allOk : ClearFlags := ⟨true, true, true, true⟩

/-- Method `clearAll`: best-effort delete of all four keys; each `deleteItemAsync`
failure is swallowed (`.catch(() => {})`), so the operation never throws and
a key survives only if its own deletion failed. -/
def clearAllStore (s : Store) (f : ClearFlags) : Store :=
  { access := if f.da then none else s.access
    refresh := if f.dr then none else s.refresh
    expiry := if f.de then none else s.expiry
    user := if f.du then none else s.user }

/-- Method `hasStoredTokens`: both access and refresh tokens present. -/
def hasStoredTokens (s : Store) : Bool :=
  s.access.isSome && s.refresh.isSome

/-- Method `isTokenExpired`: `true` when no expiry is stored; otherwise
`now + 60000 >= parseInt(expiry)`.  When the stored string does not parse
(`NaN`), the JS comparison is `false`, so the token counts as not expired. -/
def isTokenExpired (s : Store) (now : Int) : Bool :=
  match s.expiry with
  | none => true
  | some str =>
      match jsParseInt str with
      | none => false
      | some e => decide (now + 60 * 1000 ≥ e)

/-- Method `setUserData`: single `setItemAsync`; `wu` is the write
outcome; on failure the method throws and the key keeps its old value. -/
def setUserData (s : Store) (u : UserData) (wu : Bool) : Store × Bool :=
  (if wu then { s with user := some u } else s, wu)

/-! ### Auth service (src/services/auth-service.ts)

Each method is embedded as a function of the storage state plus the
environment: the network outcome of each HTTP call (`none` = network error,
HTTP error, or `success:false` envelope — all of which the source turns into
a throw) and the success flags of the storage writes/deletes it performs.
The result records the final storage state, the `Except` outcome, and the
list of network calls made. -/

/-- Network calls an auth-service method can make. -/
inductive NetCall
  | refreshCall
  | meCall
  | logoutCall
  deriving Repr, DecidableEq

/-- Outcome of an auth-service method: final storage state, thrown error or
returned value, and the network calls that were issued. -/
structure SvcOut (α : Type) where
  store : Store
  result : Except String α
  calls : List NetCall
  deriving Repr

/-- Method `AuthService.refreshTokens` (lines 216-243): read the stored refresh
token (throw if absent), POST `/auth/refresh` (`refreshNet` is its outcome),
persist the new tokens via `setTokens`; the surrounding `catch` clears the
store via `clearAll` before rethrowing, on every failure path. -/
def refreshTokensSvc (s : Store) (now : Int) (refreshNet : Option TokenData)
    (wa wr we : Bool) (cf : ClearFlags) : SvcOut TokenData :=
  match s.refresh with
  | none =>
      -- throw "No refresh token available", caught: clearAll then rethrow
      { store := clearAllStore s cf
        result := .error "No refresh token available"
        calls := [] }
  | some _ =>
      match refreshNet with
      | none =>
          -- postPublic threw or the envelope was unsuccessful
          { store := clearAllStore s cf
            result := .error "Token refresh failed"
            calls := [.refreshCall] }
      | some toks =>
          let (s1, ok) := setTokens s toks now wa wr we
          if ok then
            { store := s1, result := .ok toks, calls := [.refreshCall] }
          else
            -- setTokens threw, caught: clearAll then rethrow
            { store := clearAllStore s1 cf
              result := .error "Failed to store authentication tokens"
              calls := [.refreshCall] }

/-- Method `AuthService.getCurrentUser` (lines 248-263): GET `/auth/me`
(`meNet` is its outcome), then `setUserData`; any failure rethrows. -/
def getCurrentUserSvc (s : Store) (meNet : Option UserData) (wu : Bool) :
    SvcOut UserData :=
  match meNet with
  | none =>
      { store := s, result := .error "Failed to get user profile", calls := [.meCall] }
  | some u =>
      let (s1, ok) := setUserData s u wu
      if ok then { store := s1, result := .ok u, calls := [.meCall] }
      else { store := s1, result := .error "Failed to store user data", calls := [.meCall] }

/-- Result of `verifySession()`: final store, boolean answer, calls made. -/
structure VerifyOut where
  store : Store
  result : Bool
  calls : List NetCall
  deriving Repr

/-- Method `AuthService.verifySession` (lines 268-298).  The source wraps the
whole body in `try/catch { return false }` and each branch in its own
`try/catch`, so the embedding is a total function into `Bool`:
no stored tokens → `false` (no network); expired token → one silent
`refreshTokens`, `true` iff it succeeds; otherwise `getCurrentUser`,
`true` iff it succeeds. -/
def verifySession (s : Store) (now : Int) (refreshNet : Option TokenData)
    (meNet : Option UserData) (wa wr we wu : Bool) (cf : ClearFlags) :
    VerifyOut :=
  if hasStoredTokens s then
    if isTokenExpired s now then
      let r := refreshTokensSvc s now refreshNet wa wr we cf
      match r.result with
      | .ok _ => { store := r.store, result := true, calls := r.calls }
      | .error _ => { store := r.store, result := false, calls := r.calls }
    else
      let g := getCurrentUserSvc s meNet wu
      match g.result with
      | .ok _ => { store := g.store, result := true, calls := g.calls }
      | .error _ => { store := g.store, result := false, calls := g.calls }
  else
    { store := s, result := false, calls := [] }

/-- Events on the logout path, in execution order. -/
inductive LogoutEv
  | serverLogout
  | clearAllEv
  | removeAuthTokenEv
  deriving Repr, DecidableEq

/-- Result of `logout()`: final store, the client's cached default
`Authorization` header, and the event trace. -/
structure LogoutOut where
  store : Store
  authHeader : Option String
  trace : List LogoutEv
  deriving Repr

/-- Method `AuthService.logout` (lines 189-211): best-effort POST `/auth/logout`
whose failure is swallowed by the inner `catch`; then `clearAll()` (which
never throws — every deletion failure is swallowed inside it) and
`httpClient.removeAuthToken()` (a synchronous header delete), in that order.
`serverOk` is the server call outcome, `cf` the per-key deletion outcomes,
`hdr` the cached default Authorization header before the call.  Since
neither cleanup step can throw, the outer `catch` is unreachable and the
method always returns normally. -/
def logoutSvc (s : Store) (hdr : Option String) (serverOk : Bool)
    (cf : ClearFlags) : LogoutOut :=
  -- inner try/catch around the server call: both outcomes fall through
  let _ := serverOk
  let s1 := clearAllStore s cf
  { store := s1
    authHeader := none
    trace := [.serverLogout, .clearAllEv, .removeAuthTokenEv] }

/-! ### `register` request building (src/services/auth-service.ts lines 63-127) -/

/-- Structure `RegisterData` from src/services/auth-service.ts (optional fields as
`Option`; `none` models an omitted/undefined property). -/
structure RegisterData where
  name : String
  email : String
  password : String
  phone : Option String
  city : Option String
  isResident : Option Bool
  role : Option String
  deriving Repr, DecidableEq

/-- JS `x || d` for an optional boolean `x`: `x` when truthy, else `d`
(`false` and `undefined` are falsy). -/
def jsOrBool (x : Option Bool) (d : Bool) : Bool :=
  match x with
  | some true => true
  | some false => d
  | none => d

/-- JS `x || d` for an optional string `x`: `x` when truthy, else `d`
(`""` and `undefined` are falsy). -/
def jsOrStr (x : Option String) (d : String) : String :=
  match x with
  | none => d
  | some s => if s = "" then d else s

/-- The request body `register` sends to POST `/auth/register`. -/
structure RegisterRequest where
  name : String
  email : String
  password : String
  phone : String
  city : String
  isResident : Bool
  role : String
  deriving Repr, DecidableEq

/-- The `requestData` object built at the top of `AuthService.register`
(lines 66-74), with its JS `||` defaults. -/
def buildRegisterRequest (rd : RegisterData) : RegisterRequest :=
  { name := rd.name
    email := rd.email
    password := rd.password
    phone := jsOrStr rd.phone ""
    city := jsOrStr rd.city ""
    isResident := jsOrBool rd.isResident true
    role := jsOrStr rd.role "user" }

/-- The user fields of a successful `/auth/register` response envelope. -/
structure ApiRegisterUser where
  id : String
  name : String
  email : String
  role : String
  isEmailVerified : Bool
  createdAt : Option String
  deriving Repr, DecidableEq

/-- The `authResponse.user` object `register` persists via `setUserData`
(lines 98-109): server identity fields plus `phone`/`city`/`isResident`
echoed back from the request body it sent. -/
def registerStoredUser (req : RegisterRequest) (ru : ApiRegisterUser)
    (nowIso : String) : UserData :=
  { id := ru.id
    email := ru.email
    name := ru.name
    phone := some req.phone
    city := some req.city
    isResident := some req.isResident
    role := ru.role
    isEmailVerified := ru.isEmailVerified
    createdAt := jsOrStr ru.createdAt nowIso
    lastLoginAt := none }

/-! ### Session reducer (src/context/auth-context.tsx lines 56-143) -/

/-- Enum `AuthState` from src/services/auth-service.ts. -/
inductive AuthStatus
  | idle
  | loading
  | authenticated
  | unauthenticated
  | errorState
  deriving Repr, DecidableEq

/-- Structure `AuthContextState` (lines 23-37): the reducer state.  Note the source
state has no `tokens` field. -/
structure AuthContextState where
  state : AuthStatus
  isLoading : Bool
  isAuthenticated : Bool
  user : Option UserData
  error : Option String
  isInitialized : Bool
  deriving Repr, DecidableEq

/-- Type `AuthAction` (lines 56-63). -/
inductive AuthAction
  | setLoading (b : Bool)
  | setError (e : Option String)
  | setAuthenticated (u : UserData)
  | setUnauthenticated
  | setInitialized (b : Bool)
  | clearError
  | updateUser (u : UserData)
  deriving Repr

/-- Constant `initialState` (lines 66-73). -/
def initialState : AuthContextState :=
  { state := .idle
    isLoading := true
    isAuthenticated := false
    user := none
    error := none
    isInitialized := false }

/-- Function `authReducer` (lines 76-143).  JS truthiness: `action.payload ? x : y`
on the `SET_ERROR` payload treats `null` as falsy. -/
def authReducer (s : AuthContextState) (a : AuthAction) : AuthContextState :=
  match a with
  | .setLoading b =>
      { s with isLoading := b, state := if b then .loading else s.state }
  | .setError e =>
      { s with error := e, isLoading := false
               state := if e.isSome then .errorState else s.state }
  | .setAuthenticated u =>
      { s with isAuthenticated := true, user := some u, error := none
               isLoading := false, state := .authenticated, isInitialized := true }
  | .setUnauthenticated =>
      { s with isAuthenticated := false, user := none, error := none
               isLoading := false, state := .unauthenticated, isInitialized := true }
  | .setInitialized b =>
      { s with isInitialized := b
               isLoading := if b then s.isLoading else false }
  | .clearError =>
      { s with error := none
               state := if s.isAuthenticated then .authenticated else .unauthenticated }
  | .updateUser u =>
      { s with user := some u }

/-- A state is reachable when some dispatch sequence leads to it from
`initialState`. -/
def reachable (s : AuthContextState) : Prop :=
  ∃ acts : List AuthAction, acts.foldl authReducer initialState = s

/-! ### HTTP-client 401 interceptor (src/services/http-client.ts lines 60-144)

The JS event loop runs each interceptor handler's synchronous prefix
atomically.  A 401 handler either (a) finds `isRefreshing` set and pushes
its resolve/reject pair onto `failedQueue`, or (b) marks `_retry`, sets
`isRefreshing`, and starts the single refresh call.  When that call settles,
`processQueue` resolves (retry with the new token) or rejects every queued
request, and the owner request is itself retried or rejected.  The model
assumes a refresh token is stored (the scenario's premise), so entering
branch (b) issues exactly one backend refresh call. -/

/-- Interceptor state: the `isRefreshing` flag and `failedQueue` of
`HttpClient`, plus instrumentation (backend refresh-call count, which
requests were retried with which token, which were rejected, and the owner
request that started the in-flight refresh). -/
structure InterceptorState where
  isRefreshing : Bool
  failedQueue : List Nat
  refreshCalls : Nat
  retried : List (Nat × String)
  rejected : List Nat
  owner : Option Nat
  deriving Repr, DecidableEq

/-- The client's initial interceptor state. -/
def initInterceptor : InterceptorState :=
  { isRefreshing := false, failedQueue := [], refreshCalls := 0
    retried := [], rejected := [], owner := none }

/-- A request `r` (with `_retry` unset) receives HTTP 401: if a refresh is
in flight it is queued; otherwise it becomes the refresher and the one
backend refresh call is issued. -/
def handle401 (s : InterceptorState) (r : Nat) : InterceptorState :=
  if s.isRefreshing then
    { s with failedQueue := s.failedQueue ++ [r] }
  else
    { s with isRefreshing := true, refreshCalls := s.refreshCalls + 1
             owner := some r }

/-- The in-flight refresh settles.  On success (`some token`):
`processQueue` resolves every queued request, which retries it with the new
token, and the owner request is retried with the same token.  On failure
(`none`): `processQueue` rejects every queued request, the store is cleared,
and the owner's error propagates.  `finally` resets `isRefreshing`. -/
def refreshDone (s : InterceptorState) (outcome : Option String) :
    InterceptorState :=
  match outcome with
  | some tok =>
      { s with isRefreshing := false, failedQueue := []
               retried := s.retried ++ s.failedQueue.map (fun q => (q, tok))
                 ++ (match s.owner with | some o => [(o, tok)] | none => [])
               owner := none }
  | none =>
      { s with isRefreshing := false, failedQueue := []
               rejected := s.rejected ++ s.failedQueue
                 ++ (match s.owner with | some o => [o] | none => [])
               owner := none }

/-! ### Mutation executor (src/hooks/use-api-mutation.ts) -/

/-- Function `executeWithRetry` (lines 90-129) with a numeric `retry` bound and the
cancellation flag never set.  `outcome k` is what `mutationFn` does on the
k-th invocation (attempts are numbered from 1, as in the source).
Returns the settled result together with the final `attemptCount`
(the state field is set to `currentAttempt` at the start of each attempt).
On failure at attempt `k`, the source retries iff `k <= retry`, so the last
possible attempt is number `retry + 1` and its error is rethrown as is. -/
def executeWithRetry {E A : Type} (retry : Nat) (outcome : Nat → Except E A)
    (currentAttempt : Nat) : Except E A × Nat :=
  match outcome currentAttempt with
  | .ok a => (.ok a, currentAttempt)
  | .error e =>
      if h : currentAttempt ≤ retry then
        executeWithRetry retry outcome (currentAttempt + 1)
      else
        (.error e, currentAttempt)
termination_by retry + 1 - currentAttempt
decreasing_by omega

/-- Structure `MutationState` (lines 21-29); `data`/`error` kept abstract as flags of
presence plus the error payload. -/
structure MutationState (TData : Type) where
  data : Option TData
  error : Option String
  isLoading : Bool
  isError : Bool
  isSuccess : Bool
  isIdle : Bool
  attemptCount : Nat
  deriving Repr, DecidableEq

/-- The initial `useState` value (lines 56-64). -/
def initMutationState (TData : Type) : MutationState TData :=
  { data := none, error := none, isLoading := false, isError := false
    isSuccess := false, isIdle := true, attemptCount := 0 }

/-- The synchronous prefix of `mutate` (lines 131-148) under React's state
semantics: the in-flight guard reads `state.isLoading` from the render-time
closure snapshot `snap` (the `useCallback` at line 233 lists `state` among
its dependencies, so the closure sees the state of the render that created
it), while the `setState` functional update is applied to the latest state
`cur`.  Returns the new latest state and whether the call proceeds to
invoke the mutation function (`false` = early-returned no-op). -/
def mutateBegin {TData : Type} (snap cur : MutationState TData) :
    MutationState TData × Bool :=
  if snap.isLoading then
    (cur, false)
  else
    ({ cur with isLoading := true, isError := false, isSuccess := false
                isIdle := false, error := none },
     true)

/-- Two back-to-back `mutate` calls from the same render closure: no
re-render happens between the calls, so both guards read the same snapshot
`snap`.  Returns the final latest state and how many times the mutation
function was invoked. -/
def mutateTwiceSameRender {TData : Type} (snap cur : MutationState TData) :
    MutationState TData × Nat :=
  let (s1, b1) := mutateBegin snap cur
  let (s2, b2) := mutateBegin snap s1
  (s2, (if b1 then 1 else 0) + (if b2 then 1 else 0))

/-- Two `mutate` calls separated by a re-render: the first call's `setState`
result is delivered to a fresh closure, so the second call's guard reads the
updated state.  Returns the final latest state and how many times the
mutation function was invoked. -/
def mutateTwiceAfterRerender {TData : Type} (snap cur : MutationState TData) :
    MutationState TData × Nat :=
  let (s1, b1) := mutateBegin snap cur
  let (s2, b2) := mutateBegin s1 s1
  (s2, (if b1 then 1 else 0) + (if b2 then 1 else 0))

/-! ### Shared helpers -/

/-- Truth of an `Except` being an error. -/
def isErr {α : Type} : Except String α → Bool
  | .error _ => true
  | .ok _ => false

/-- When every deletion succeeds, `clearAll` leaves storage empty. -/
theorem clearAllStore_allOk (s : Store) :
    clearAllStore s ClearFlags.allOk = emptyStore := by
  simp [clearAllStore, ClearFlags.allOk, emptyStore]

/-! ### C10 — `register` forces `isResident` to `true` -/

/-- C10: for every `RegisterData` input, `AuthService.register` puts
`isResident = true` in the request body it sends and `isResident = true` in
the user profile it persists — even when the caller passes
`isResident: false` — because the default is applied with JS logical-or
(`registerData.isResident || true`). -/
theorem C10_register_isResident_always_true (rd : RegisterData)
    (ru : ApiRegisterUser) (nowIso : String) :
    (buildRegisterRequest rd).isResident = true ∧
    (registerStoredUser (buildRegisterRequest rd) ru nowIso).isResident = some true ∧
    (buildRegisterRequest { rd with isResident := some false }).isResident = true := by
  have h : ∀ x : Option Bool, jsOrBool x true = true := by
    intro x
    rcases x with _ | b
    · rfl
    · cases b <;> rfl
  refine ⟨?_, ?_, ?_⟩
  · simp [buildRegisterRequest, h]
  · simp [registerStoredUser, buildRegisterRequest, h]
  · simp [buildRegisterRequest, h]

/-! ### C8 — the in-flight guard and back-to-back `mutate` calls

The claim states that the second of two back-to-back `mutate` calls is a
no-op with the mutation function invoked only once.  On the source this
fails: the guard at line 133 reads `state.isLoading` from the render-time
closure (`useCallback` with `state` in its dependency list, line 233), and
`setState` only schedules an update, so two calls made before any re-render
both see `isLoading = false`, both pass the guard, and the mutation function
runs twice.  The guard works only once a re-render has delivered the loading
state to a fresh closure. -/

/-- C8 (counterexample to the claim as stated): from the executor's initial
state, two back-to-back `mutate` calls sharing the same render closure both
pass the guard — the second call is not a no-op (it proceeds, writing the
state again) and the mutation function is invoked twice, not once. -/
theorem C8_second_mutate_counterexample :
    (mutateBegin (initMutationState Nat)
        (mutateBegin (initMutationState Nat) (initMutationState Nat)).1).2
      = true ∧
    (mutateTwiceSameRender (initMutationState Nat) (initMutationState Nat)).2
      = 2 :=
  ⟨rfl, rfl⟩

/-- C8 (amended): a second `mutate` call is a no-op — state unchanged,
mutation function not invoked — exactly when its closure snapshot already
has `isLoading = true`, i.e. only when a re-render after the first call has
delivered the loading state to the closure; then the mutation function runs
exactly once across the two calls.  Back-to-back calls before any re-render
share the stale snapshot and invoke the mutation function twice. -/
theorem C8_second_mutate_guard {TData : Type} (snap cur : MutationState TData) :
    (snap.isLoading = true → mutateBegin snap cur = (cur, false)) ∧
    (snap.isLoading = false →
      mutateTwiceAfterRerender snap cur = ((mutateBegin snap cur).1, 1) ∧
      (mutateTwiceSameRender snap cur).2 = 2) := by
  constructor
  · intro h
    simp [mutateBegin, h]
  · intro h
    constructor
    · simp [mutateTwiceAfterRerender, mutateBegin, h]
    · simp [mutateTwiceSameRender, mutateBegin, h]

/-- Witness for the amended C8 theorem at the executor's initial state. -/
theorem C8_second_mutate_guard_witness :
    mutateTwiceAfterRerender (initMutationState Nat) (initMutationState Nat)
      = ((mutateBegin (initMutationState Nat) (initMutationState Nat)).1, 1) ∧
    (mutateTwiceSameRender (initMutationState Nat) (initMutationState Nat)).2
      = 2 :=
  (C8_second_mutate_guard (initMutationState Nat) (initMutationState Nat)).2 rfl

/-! ### C4 — `logout` always completes local cleanup -/

/-- C4: whatever the server logout call does (success or throw), `logout`
runs `clearAll` on the store and then strips the cached Authorization
header, in that order; when the platform deletions succeed the four keys
are all cleared.  Local cleanup always completes because both cleanup steps
are non-throwing in the source. -/
theorem C4_logout_always_cleans_up (s : Store) (hdr : Option String)
    (serverOk : Bool) (cf : ClearFlags) :
    (logoutSvc s hdr serverOk cf).trace
      = [.serverLogout, .clearAllEv, .removeAuthTokenEv] ∧
    (logoutSvc s hdr serverOk cf).authHeader = none ∧
    (logoutSvc s hdr serverOk cf).store = clearAllStore s cf ∧
    (cf = ClearFlags.allOk → (logoutSvc s hdr serverOk cf).store = emptyStore) := by
  refine ⟨rfl, rfl, rfl, ?_⟩
  rintro rfl
  simpa [logoutSvc] using clearAllStore_allOk s

/-- Witness for C4: a populated store, a failing server call, deletions
succeeding — the store ends empty and cleanup order holds. -/
theorem C4_logout_always_cleans_up_witness :
    (logoutSvc ⟨some "at", some "rt", some "123", none⟩ (some "Bearer at")
        false ClearFlags.allOk).store = emptyStore ∧
    (logoutSvc ⟨some "at", some "rt", some "123", none⟩ (some "Bearer at")
        false ClearFlags.allOk).trace
      = [.serverLogout, .clearAllEv, .removeAuthTokenEv] :=
  ⟨(C4_logout_always_cleans_up ⟨some "at", some "rt", some "123", none⟩
      (some "Bearer at") false ClearFlags.allOk).2.2.2 rfl,
   (C4_logout_always_cleans_up ⟨some "at", some "rt", some "123", none⟩
      (some "Bearer at") false ClearFlags.allOk).1⟩

/-! ### C9 — the persisted record is written/cleared as a group, and
tokens without an expiry are treated as expired -/

/-- C9: `setTokens` with all writes succeeding writes the three token keys
together (leaving the profile key alone); `clearAll` with all deletions
succeeding clears all four keys together; and any storage state with no
expiry value — in particular any partial-write outcome of `setTokens` that
lost the expiry — is treated as expired by `isTokenExpired`. -/
theorem C9_group_lifecycle_and_expiry_safety (s : Store) (t : TokenData)
    (now : Int) :
    setTokens s t now true true true
      = ({ s with access := some t.accessToken, refresh := some t.refreshToken,
                  expiry := some (calculateExpiryTimestamp now t.expiresIn) },
         true) ∧
    clearAllStore s ClearFlags.allOk = emptyStore ∧
    (∀ (s2 : Store) (n2 : Int), s2.expiry = none → isTokenExpired s2 n2 = true) := by
  refine ⟨by simp [setTokens], clearAllStore_allOk s, ?_⟩
  intro s2 n2 h
  simp [isTokenExpired, h]

/-- Witness for C9: a concrete partial-write outcome of `setTokens` where
the expiry write failed leaves tokens without an expiry, and that state is
judged expired. -/
theorem C9_group_lifecycle_and_expiry_safety_witness :
    (setTokens emptyStore ⟨"at", "rt", "15m"⟩ 0 true true false).1.expiry = none ∧
    isTokenExpired (setTokens emptyStore ⟨"at", "rt", "15m"⟩ 0 true true false).1 0
      = true :=
  ⟨rfl,
   (C9_group_lifecycle_and_expiry_safety emptyStore ⟨"at", "rt", "15m"⟩ 0).2.2
     (setTokens emptyStore ⟨"at", "rt", "15m"⟩ 0 true true false).1 0 rfl⟩

/-! ### C2 — single refresh for concurrent 401s -/

/-- C2: when two concurrent requests both receive 401 while no refresh is
in flight, exactly one backend refresh call is made; if the refresh succeeds
both original requests are retried with the resulting token, and if it fails
both are rejected.  Moreover a request that arrives while a refresh is in
flight is queued and never increments the refresh-call count. -/
theorem C2_concurrent_401_single_refresh :
    (∀ (r1 r2 : Nat) (outcome : Option String),
      (refreshDone (handle401 (handle401 initInterceptor r1) r2) outcome).refreshCalls = 1 ∧
      (∀ tok, outcome = some tok →
        (r1, tok) ∈ (refreshDone (handle401 (handle401 initInterceptor r1) r2) outcome).retried ∧
        (r2, tok) ∈ (refreshDone (handle401 (handle401 initInterceptor r1) r2) outcome).retried ∧
        (refreshDone (handle401 (handle401 initInterceptor r1) r2) outcome).rejected = []) ∧
      (outcome = none →
        r1 ∈ (refreshDone (handle401 (handle401 initInterceptor r1) r2) outcome).rejected ∧
        r2 ∈ (refreshDone (handle401 (handle401 initInterceptor r1) r2) outcome).rejected ∧
        (refreshDone (handle401 (handle401 initInterceptor r1) r2) outcome).retried = [])) ∧
    (∀ (s : InterceptorState) (r : Nat), s.isRefreshing = true →
      (handle401 s r).refreshCalls = s.refreshCalls) := by
  constructor
  · intro r1 r2 outcome
    refine ⟨?_, ?_, ?_⟩
    · cases outcome <;> simp [refreshDone, handle401, initInterceptor]
    · rintro tok rfl
      simp [refreshDone, handle401, initInterceptor]
    · rintro rfl
      simp [refreshDone, handle401, initInterceptor]
  · intro s r h
    simp [handle401, h]

/-- Witness for C2 at concrete request ids and a successful refresh. -/
theorem C2_concurrent_401_single_refresh_witness :
    (refreshDone (handle401 (handle401 initInterceptor 7) 8) (some "tk")).refreshCalls = 1 ∧
    (7, "tk") ∈ (refreshDone (handle401 (handle401 initInterceptor 7) 8) (some "tk")).retried ∧
    (8, "tk") ∈ (refreshDone (handle401 (handle401 initInterceptor 7) 8) (some "tk")).retried :=
  ⟨(C2_concurrent_401_single_refresh.1 7 8 (some "tk")).1,
   ((C2_concurrent_401_single_refresh.1 7 8 (some "tk")).2.1 "tk" rfl).1,
   ((C2_concurrent_401_single_refresh.1 7 8 (some "tk")).2.1 "tk" rfl).2.1⟩

/-! ### C7 — retry counting and final error of the mutation executor -/

/-- Unfolding helper: a successful attempt stops the retry loop. -/
theorem executeWithRetry_ok {E A : Type} (retry : Nat)
    (outcome : Nat → Except E A) (cur : Nat) (a : A)
    (h : outcome cur = .ok a) :
    executeWithRetry retry outcome cur = (.ok a, cur) := by
  rw [executeWithRetry.eq_def, h]

/-- Unfolding helper: a failed attempt within the bound recurses. -/
theorem executeWithRetry_err_next {E A : Type} (retry : Nat)
    (outcome : Nat → Except E A) (cur : Nat) (e : E)
    (h : outcome cur = .error e) (hle : cur ≤ retry) :
    executeWithRetry retry outcome cur
      = executeWithRetry retry outcome (cur + 1) := by
  rw [executeWithRetry.eq_def, h]
  simp [hle]

/-- Unfolding helper: a failed attempt beyond the bound rethrows its error. -/
theorem executeWithRetry_err_stop {E A : Type} (retry : Nat)
    (outcome : Nat → Except E A) (cur : Nat) (e : E)
    (h : outcome cur = .error e) (hgt : ¬ cur ≤ retry) :
    executeWithRetry retry outcome cur = (.error e, cur) := by
  rw [executeWithRetry.eq_def, h]
  simp [hgt]

/-- When every attempt from `cur` through `retry + 1` fails, the loop ends
at attempt `retry + 1` with that attempt's error. -/
theorem executeWithRetry_exhausted {E A : Type} (retry : Nat)
    (outcome : Nat → Except E A) (errAt : Nat → E) :
    ∀ (fuel cur : Nat), retry + 1 - cur = fuel → 1 ≤ cur → cur ≤ retry + 1 →
      (∀ k, cur ≤ k → k ≤ retry + 1 → outcome k = .error (errAt k)) →
      executeWithRetry retry outcome cur
        = (.error (errAt (retry + 1)), retry + 1) := by
  intro fuel
  induction fuel with
  | zero =>
      intro cur hf h1 hle hall
      have hcur : cur = retry + 1 := by omega
      subst hcur
      exact executeWithRetry_err_stop retry outcome (retry + 1)
        (errAt (retry + 1)) (hall (retry + 1) le_rfl le_rfl) (by omega)
  | succ n ih =>
      intro cur hf h1 hle hall
      have hlt : cur ≤ retry := by omega
      rw [executeWithRetry_err_next retry outcome cur (errAt cur)
        (hall cur le_rfl hle) hlt]
      exact ih (cur + 1) (by omega) (by omega) (by omega)
        (fun k hk1 hk2 => hall k (by omega) hk2)

/-- C7: an executor configured with `retry = 2` whose mutation function
fails on attempts 1 and 2 and succeeds on attempt 3 settles successfully
with `attemptCount = 3`; and whenever every attempt up to the bound fails,
the error surfaced is exactly the error the last attempt threw, at
`attemptCount = retry + 1`. -/
theorem C7_retry_count_and_last_error :
    (∀ (E A : Type) (e1 e2 : E) (a : A) (outcome : Nat → Except E A),
      outcome 1 = .error e1 → outcome 2 = .error e2 → outcome 3 = .ok a →
      executeWithRetry 2 outcome 1 = (.ok a, 3)) ∧
    (∀ (E A : Type) (retry : Nat) (outcome : Nat → Except E A) (errAt : Nat → E),
      (∀ k, 1 ≤ k → k ≤ retry + 1 → outcome k = .error (errAt k)) →
      executeWithRetry retry outcome 1
        = (.error (errAt (retry + 1)), retry + 1)) := by
  constructor
  · intro E A e1 e2 a outcome h1 h2 h3
    rw [executeWithRetry_err_next 2 outcome 1 e1 h1 (by omega),
        executeWithRetry_err_next 2 outcome 2 e2 h2 (by omega),
        executeWithRetry_ok 2 outcome 3 a h3]
  · intro E A retry outcome errAt hall
    exact executeWithRetry_exhausted retry outcome errAt retry 1 (by omega)
      le_rfl (by omega) (fun k hk1 hk2 => hall k hk1 hk2)

/-- Witness for C7: a concrete fail-fail-succeed outcome sequence and a
concrete always-failing sequence. -/
theorem C7_retry_count_and_last_error_witness :
    executeWithRetry 2 (fun k => if k ≤ 2 then .error (toString k) else .ok "done") 1
      = (.ok "done", 3) ∧
    executeWithRetry 2 (fun k => (.error (toString k) : Except String String)) 1
      = (.error "3", 3) :=
  ⟨C7_retry_count_and_last_error.1 String String "1" "2" "done"
      (fun k => if k ≤ 2 then .error (toString k) else .ok "done")
      rfl rfl rfl,
   C7_retry_count_and_last_error.2 String String 2
      (fun k => (.error (toString k) : Except String String))
      (fun k => toString k) (fun k _ _ => rfl)⟩

/-! ### C3 — a failed refresh throws and never leaves tokens behind -/

/-- C3: `refreshTokens` throws when no refresh token is stored, and on every
failure path (missing token, server rejection, failed persistence of the new
tokens) it clears the whole persisted record before rethrowing, so with the
platform deletions succeeding no tokens are left behind after a failed
refresh. -/
theorem C3_refresh_failure_clears_storage (s : Store) (now : Int)
    (refreshNet : Option TokenData) (wa wr we : Bool) :
    (s.refresh = none →
      isErr (refreshTokensSvc s now refreshNet wa wr we ClearFlags.allOk).result
        = true) ∧
    (isErr (refreshTokensSvc s now refreshNet wa wr we ClearFlags.allOk).result
        = true →
      (refreshTokensSvc s now refreshNet wa wr we ClearFlags.allOk).store
        = emptyStore) := by
  constructor
  · intro h
    simp [refreshTokensSvc, h, isErr]
  · intro h
    rcases hr : s.refresh with _ | rt
    · simp [refreshTokensSvc, hr, clearAllStore_allOk]
    · rcases hn : refreshNet with _ | toks
      · simp [refreshTokensSvc, hr, hn, clearAllStore_allOk]
      · by_cases hok : (wa && wr && we) = true
        · exfalso
          simp [refreshTokensSvc, hr, hn, setTokens, hok, isErr] at h
        · simp [refreshTokensSvc, hr, hn, setTokens, hok, clearAllStore_allOk]

/-- Witness for C3: no stored refresh token — the call errors and the store
ends empty. -/
theorem C3_refresh_failure_clears_storage_witness :
    isErr (refreshTokensSvc ⟨some "at", none, some "99", none⟩ 0 none
        true true true ClearFlags.allOk).result = true ∧
    (refreshTokensSvc ⟨some "at", none, some "99", none⟩ 0 none
        true true true ClearFlags.allOk).store = emptyStore := by
  have h1 := (C3_refresh_failure_clears_storage
      ⟨some "at", none, some "99", none⟩ 0 none true true true).1 rfl
  exact ⟨h1,
    (C3_refresh_failure_clears_storage
      ⟨some "at", none, some "99", none⟩ 0 none true true true).2 h1⟩

/-! ### C5 — the expiry grammar -/

/-- Parsing a nonempty all-digit string yields its decimal value. -/
theorem jsParseInt_digits (ds : List Char) (hne : ds ≠ [])
    (hdig : ∀ c ∈ ds, c.isDigit = true) :
    jsParseInt (String.mk ds) = some ((decimalValue ds : Nat) : Int) := by
  rcases ds with _ | ⟨d, tl⟩
  · exact absurd rfl hne
  have hd : d.isDigit = true := hdig d (by simp)
  have hds : d ≠ ' ' := by
    intro h; rw [h] at hd; exact absurd hd (by decide)
  have hdm : d ≠ '-' := by
    intro h; rw [h] at hd; exact absurd hd (by decide)
  have hdp : d ≠ '+' := by
    intro h; rw [h] at hd; exact absurd hd (by decide)
  have hdrop : (String.mk (d :: tl)).toList.dropWhile (fun c => c = ' ')
      = d :: tl := by
    simp [List.dropWhile_cons, hds]
  have htake : (d :: tl).takeWhile Char.isDigit = d :: tl :=
    List.takeWhile_eq_self_iff.mpr hdig
  rw [jsParseInt, hdrop]
  simp [hdm, hdp, htake]

/-- Dropping the final unit character recovers the digit prefix. -/
theorem sliceDropLast_concat (ds : List Char) (u : Char) :
    sliceDropLast (String.mk (ds ++ [u])) = String.mk ds := by
  simp [sliceDropLast]

/-- The final unit character is what `slice(-1)` returns. -/
theorem sliceLast_concat (ds : List Char) (u : Char) :
    sliceLast (String.mk (ds ++ [u])) = String.mk [u] := by
  simp [sliceLast]

/-- C5: for every `expiresIn` string of the form `{n}{s|m|h|d}` (a nonempty
digit prefix of value `n` followed by a unit character), the computed expiry
is `now + n * unitMillis`; and for every string whose last character is not
one of the four units, the expiry falls back to `now + 15` minutes. -/
theorem C5_expiry_grammar :
    (∀ (now : Int) (ds : List Char) (u : Char),
      ds ≠ [] → (∀ c ∈ ds, c.isDigit = true) →
      u ∈ (['s', 'm', 'h', 'd'] : List Char) →
      calculateExpiryTimestamp now (String.mk (ds ++ [u]))
        = toString (now + (decimalValue ds : Int) * unitMillis u)) ∧
    (∀ (now : Int) (str : String),
      sliceLast str ∉ (["s", "m", "h", "d"] : List String) →
      calculateExpiryTimestamp now str = toString (now + 15 * 60 * 1000)) := by
  constructor
  · intro now ds u hne hdig hu
    have hparse := jsParseInt_digits ds hne hdig
    have hdrop := sliceDropLast_concat ds u
    have hlast := sliceLast_concat ds u
    have hcases : u = 's' ∨ u = 'm' ∨ u = 'h' ∨ u = 'd' := by
      simpa using hu
    rcases hcases with rfl | rfl | rfl | rfl
    · rw [calculateExpiryTimestamp, hdrop, hlast, hparse]
      simp only [show (String.mk ['s'] = "s") = True by simp, if_true,
        Option.map_some']
      rw [show unitMillis 's' = 1000 from by decide]
    · rw [calculateExpiryTimestamp, hdrop, hlast, hparse]
      simp only [show (String.mk ['m'] = "s") = False by simp, if_false,
        show (String.mk ['m'] = "m") = True by simp, if_true, Option.map_some']
      rw [show unitMillis 'm' = 60 * 1000 from by decide]
      exact congrArg toString (by ring)
    · rw [calculateExpiryTimestamp, hdrop, hlast, hparse]
      simp only [show (String.mk ['h'] = "s") = False by simp, if_false,
        show (String.mk ['h'] = "m") = False by simp,
        show (String.mk ['h'] = "h") = True by simp, if_true, Option.map_some']
      rw [show unitMillis 'h' = 60 * 60 * 1000 from by decide]
      exact congrArg toString (by ring)
    · rw [calculateExpiryTimestamp, hdrop, hlast, hparse]
      simp only [show (String.mk ['d'] = "s") = False by simp, if_false,
        show (String.mk ['d'] = "m") = False by simp,
        show (String.mk ['d'] = "h") = False by simp,
        show (String.mk ['d'] = "d") = True by simp, if_true, Option.map_some']
      rw [show unitMillis 'd' = 24 * 60 * 60 * 1000 from by decide]
      exact congrArg toString (by ring)
  · intro now str h
    have hs : sliceLast str ≠ "s" := by intro hc; exact h (by simp [hc])
    have hm : sliceLast str ≠ "m" := by intro hc; exact h (by simp [hc])
    have hh : sliceLast str ≠ "h" := by intro hc; exact h (by simp [hc])
    have hd : sliceLast str ≠ "d" := by intro hc; exact h (by simp [hc])
    rw [calculateExpiryTimestamp]
    simp [hs, hm, hh, hd]

/-- Witness for C5: `"15m"` with `now = 0` gives `"900000"`, and the
unknown suffix `"10x"` falls back to 15 minutes. -/
theorem C5_expiry_grammar_witness :
    calculateExpiryTimestamp 0 (String.mk (['1', '5'] ++ ['m']))
      = toString ((0 : Int) + (decimalValue ['1', '5'] : Int) * unitMillis 'm') ∧
    calculateExpiryTimestamp 123 "10x" = toString ((123 : Int) + 15 * 60 * 1000) :=
  ⟨C5_expiry_grammar.1 0 ['1', '5'] 'm' (by decide) (by decide) (by decide),
   C5_expiry_grammar.2 123 "10x" (by decide)⟩

/-! ### C6 — the session-status invariant

The claim states `status = authenticated ⇔ user ≠ null ∧ tokens ≠ null` in
every reachable reducer state.  The reducer state in the source
(`AuthContextState`, src/context/auth-context.tsx) has no `tokens` field at
all, and the backward implication fails: dispatching `SET_LOADING true`
from an authenticated state (which `logout` and `login` both do) yields a
reachable state whose `user` is still non-null while `status = loading`.
The forward implication does hold in every reachable state. -/

/-- A concrete user profile for exercising the reducer. -/
def sampleUser : UserData :=
  { id := "u1", name := "Ana", email := "ana@tolima.go", role := "user"
    isEmailVerified := true, phone := none, city := none
    isResident := some true, createdAt := "2024-01-01T00:00:00Z"
    lastLoginAt := none }

/-- Inductive invariant of `authReducer`: an authenticated status (and the
`isAuthenticated` flag) implies a non-null user. -/
def authInvar (s : AuthContextState) : Prop :=
  (s.state = .authenticated → s.user ≠ none) ∧
  (s.isAuthenticated = true → s.user ≠ none)

/-- Each reducer step preserves the invariant. -/
theorem authInvar_step (s : AuthContextState) (a : AuthAction)
    (h : authInvar s) : authInvar (authReducer s a) := by
  obtain ⟨h1, h2⟩ := h
  cases a with
  | setLoading b =>
      cases b
      · exact ⟨fun hs => h1 (by simpa [authReducer] using hs),
               fun hs => h2 (by simpa [authReducer] using hs)⟩
      · refine ⟨fun hs => ?_, fun hs => h2 (by simpa [authReducer] using hs)⟩
        simp [authReducer] at hs
  | setError e =>
      rcases e with _ | msg
      · exact ⟨fun hs => h1 (by simpa [authReducer] using hs),
               fun hs => h2 (by simpa [authReducer] using hs)⟩
      · refine ⟨fun hs => ?_, fun hs => h2 (by simpa [authReducer] using hs)⟩
        simp [authReducer] at hs
  | setAuthenticated u =>
      exact ⟨fun _ => by simp [authReducer], fun _ => by simp [authReducer]⟩
  | setUnauthenticated =>
      refine ⟨fun hs => ?_, fun hs => ?_⟩
      · simp [authReducer] at hs
      · simp [authReducer] at hs
  | setInitialized b =>
      exact ⟨fun hs => h1 (by simpa [authReducer] using hs),
             fun hs => h2 (by simpa [authReducer] using hs)⟩
  | clearError =>
      refine ⟨fun hs => ?_, fun hs => ?_⟩
      · by_cases hia : s.isAuthenticated = true
        · simpa [authReducer] using h2 hia
        · simp [authReducer, hia] at hs
      · exact h2 (by simpa [authReducer] using hs)
  | updateUser u =>
      exact ⟨fun _ => by simp [authReducer], fun _ => by simp [authReducer]⟩

/-- The invariant holds along any dispatch sequence. -/
theorem authInvar_foldl (acts : List AuthAction) :
    ∀ s, authInvar s → authInvar (acts.foldl authReducer s) := by
  induction acts with
  | nil => exact fun s h => h
  | cons a t ih => exact fun s h => ih _ (authInvar_step s a h)

/-- C6 (counterexample to the claim as stated): dispatching
`SET_AUTHENTICATED` and then `SET_LOADING true` from the initial state
reaches a state whose user is non-null (and whose session tokens were just
installed) but whose status is `loading`, not `authenticated` — so the
biconditional `status = authenticated ⇔ user ≠ null ∧ tokens ≠ null` fails
in a reachable state; the reducer state moreover has no `tokens` field. -/
theorem C6_invariant_counterexample :
    reachable (authReducer (authReducer initialState
        (.setAuthenticated sampleUser)) (.setLoading true)) ∧
    (authReducer (authReducer initialState
        (.setAuthenticated sampleUser)) (.setLoading true)).user ≠ none ∧
    (authReducer (authReducer initialState
        (.setAuthenticated sampleUser)) (.setLoading true)).state
      ≠ .authenticated := by
  refine ⟨⟨[.setAuthenticated sampleUser, .setLoading true], rfl⟩, ?_, ?_⟩
  · simp [authReducer, initialState]
  · simp [authReducer, initialState]

/-- C6 (amended): in every state reachable by `authReducer` from
`initialState`, if the status is `authenticated` then the user is
non-null.  (The spec's converse direction fails — see the counterexample —
and the reducer state carries no `tokens` field.) -/
theorem C6_authenticated_implies_user (s : AuthContextState)
    (h : reachable s) : s.state = .authenticated → s.user ≠ none := by
  obtain ⟨acts, rfl⟩ := h
  exact (authInvar_foldl acts initialState
    ⟨by simp [initialState], by simp [initialState]⟩).1

/-- Witness for the amended C6 theorem at a concrete reachable state. -/
theorem C6_authenticated_implies_user_witness :
    (authReducer initialState (.setAuthenticated sampleUser)).user ≠ none :=
  C6_authenticated_implies_user
    (authReducer initialState (.setAuthenticated sampleUser))
    ⟨[.setAuthenticated sampleUser], rfl⟩ rfl

/-! ### C1 — the `verifySession` algorithm -/

/-- C1: `verifySession` is a total boolean function of the storage state and
environment (the source catches every exception), and for every storage
state: with no stored tokens it answers `false` making no network call;
with stored but expired tokens it makes exactly one refresh call and
answers `true` iff the silent refresh succeeds (network refresh delivers
tokens and all three token writes persist); otherwise it makes exactly one
current-user fetch and answers `true` iff that fetch succeeds (network
delivers the profile and the profile write persists). -/
theorem C1_verifySession_algorithm (s : Store) (now : Int)
    (refreshNet : Option TokenData) (meNet : Option UserData)
    (wa wr we wu : Bool) (cf : ClearFlags) :
    (hasStoredTokens s = false →
      (verifySession s now refreshNet meNet wa wr we wu cf).result = false ∧
      (verifySession s now refreshNet meNet wa wr we wu cf).calls = []) ∧
    (hasStoredTokens s = true → isTokenExpired s now = true →
      (verifySession s now refreshNet meNet wa wr we wu cf).calls
        = [.refreshCall] ∧
      ((verifySession s now refreshNet meNet wa wr we wu cf).result = true ↔
        ((∃ t, refreshNet = some t) ∧ wa = true ∧ wr = true ∧ we = true))) ∧
    (hasStoredTokens s = true → isTokenExpired s now = false →
      (verifySession s now refreshNet meNet wa wr we wu cf).calls = [.meCall] ∧
      ((verifySession s now refreshNet meNet wa wr we wu cf).result = true ↔
        ((∃ u, meNet = some u) ∧ wu = true))) := by
  refine ⟨?_, ?_, ?_⟩
  · intro h
    constructor <;> simp [verifySession, h]
  · intro hst hexp
    obtain ⟨rt, hrt⟩ : ∃ rt, s.refresh = some rt := by
      have := (Bool.and_eq_true _ _).mp (by simpa [hasStoredTokens] using hst)
      exact Option.isSome_iff_exists.mp this.2
    rcases hn : refreshNet with _ | toks
    · constructor <;>
        simp [verifySession, hst, hexp, refreshTokensSvc, hrt]
    · by_cases hok : (wa && wr && we) = true
      · obtain ⟨⟨hwa, hwr⟩, hwe⟩ :
            (wa = true ∧ wr = true) ∧ we = true := by
          have h1 := (Bool.and_eq_true _ _).mp hok
          exact ⟨(Bool.and_eq_true _ _).mp h1.1, h1.2⟩
        constructor <;>
          simp [verifySession, hst, hexp, refreshTokensSvc, hrt, setTokens,
            hwa, hwr, hwe]
      · have hflags : ¬ (wa = true ∧ wr = true ∧ we = true) := by
          intro hc
          exact hok (by simp [hc.1, hc.2.1, hc.2.2])
        constructor
        · simp [verifySession, hst, hexp, refreshTokensSvc, hrt, setTokens, hok]
        · simp only [verifySession, hst, hexp, if_true]
          simp [refreshTokensSvc, hrt, setTokens, hok, hflags]
  · intro hst hexp
    rcases hn : meNet with _ | u
    · constructor <;> simp [verifySession, hst, hexp, getCurrentUserSvc]
    · cases wu
      · constructor <;>
          simp [verifySession, hst, hexp, getCurrentUserSvc, setUserData]
      · constructor <;>
          simp [verifySession, hst, hexp, getCurrentUserSvc, setUserData]

/-- Witness for C1: an empty store answers `false` with zero network
calls. -/
theorem C1_verifySession_algorithm_witness :
    (verifySession emptyStore 0 none none true true true true
        ClearFlags.allOk).result = false ∧
    (verifySession emptyStore 0 none none true true true true
        ClearFlags.allOk).calls = [] :=
  (C1_verifySession_algorithm emptyStore 0 none none true true true true
      ClearFlags.allOk).1 rfl

end TolimaGO
